import Mathlib

/-!
Verification development for the qbo_pricing repository.

The Python source is shallowly embedded in Lean:

* pandas / numpy float64 values that can be NaN or infinite (the columns
  produced by the left join and the delta computation) are modelled by
  `PFloat`: exact rationals extended with `nan`, `inf` and `negInf`, with
  subtraction, division and multiplication following the IEEE-754 special
  cases that numpy implements (division of a nonzero number by zero yields a
  signed infinity without raising, 0/0 yields NaN, any operation on NaN
  yields NaN).  `round(x, 2)` is numpy's half-to-even rounding at two
  decimal places, exact on rationals.
* raw QuickBooks JSON pages are modelled by structures whose `Option` fields
  record whether the corresponding JSON key is present; Python's
  `d.get(key, default)` becomes `Option.getD`, and Python's `d[key]` on a
  missing key becomes an `Except.error` carrying a `PyErr.keyError...` value
  (the `KeyError` the interpreter raises).
* database rows and the OAuth token endpoint are modelled by explicit state
  passing: the stored credential is an `Option StoredCompany` argument and
  result, and one upstream HTTP exchange is an `Except PyErr TokenResponse`
  argument.
-/

/-- Exceptions of the embedded Python code that the claims distinguish. -/

inductive PyErr where
  | keyErrorQueryResponse
  | keyErrorBill
  | transportError
  | dbSessionError
  | unboundLocalDb
  | upstreamExhausted
  | attributeErrorSlotExtractor
  deriving DecidableEq

/-- Result of one embedded Python call: a returned value or a propagated
exception. -/
inductive PyOutcome (α : Type) where
  | ok (val : α) : PyOutcome α
  | exn (err : PyErr) : PyOutcome α
  deriving DecidableEq

/-- Model of a pandas float64 cell: an exact rational or one of the IEEE
special values NaN, plus infinity and minus infinity. -/

inductive PFloat where
  | nan : PFloat
  | inf : PFloat
  | negInf : PFloat
  | num (q : ℚ) : PFloat
  deriving DecidableEq

namespace PFloat

/-- IEEE-754 subtraction restricted to the values `PFloat` represents. -/

def sub : PFloat → PFloat → PFloat
  | nan, _ => nan
  | _, nan => nan
  | inf, inf => nan
  | inf, _ => inf
  | negInf, negInf => nan
  | negInf, _ => negInf
  | num _, inf => negInf
  | num _, negInf => inf
  | num a, num b => num (a - b)

/-- IEEE-754 division: a nonzero number divided by zero is a signed
infinity (numpy emits a warning but no exception), zero divided by zero is
NaN, NaN propagates. -/

def div : PFloat → PFloat → PFloat
  | nan, _ => nan
  | _, nan => nan
  | inf, inf => nan
  | inf, negInf => nan
  | negInf, inf => nan
  | negInf, negInf => nan
  | inf, num b => if b < 0 then negInf else inf
  | negInf, num b => if b < 0 then inf else negInf
  | num _, inf => num 0
  | num _, negInf => num 0
  | num a, num b =>
    if b = 0 then
      if a = 0 then nan
      else if 0 < a then inf else negInf
    else num (a / b)

/-- IEEE-754 multiplication: infinity times zero is NaN, NaN propagates. -/

def mul : PFloat → PFloat → PFloat
  | nan, _ => nan
  | _, nan => nan
  | inf, inf => inf
  | inf, negInf => negInf
  | negInf, inf => negInf
  | negInf, negInf => inf
  | inf, num b => if b = 0 then nan else if 0 < b then inf else negInf
  | num a, inf => if a = 0 then nan else if 0 < a then inf else negInf
  | negInf, num b => if b = 0 then nan else if 0 < b then negInf else inf
  | num a, negInf => if a = 0 then nan else if 0 < a then negInf else inf
  | num a, num b => num (a * b)

end PFloat

/-- Round a rational to the nearest integer, ties to even — the rounding
numpy's `round` uses. -/

def roundHalfEven (q : ℚ) : ℤ :=
  let f : ℤ := ⌊q⌋
  let frac : ℚ := q - f
  if frac < 1 / 2 then f
  else if 1 / 2 < frac then f + 1
  else if f % 2 = 0 then f else f + 1

/-- Model of `round(series, 2)` on one cell: rounds a finite value to two
decimal places half-to-even; NaN and the infinities are returned unchanged
(numpy's behaviour). -/

def PFloat.round2 : PFloat → PFloat
  | nan => nan
  | inf => inf
  | negInf => negInf
  | num q => num ((roundHalfEven (q * 100) : ℚ) / 100)

/-- CanonicalRow (Purchase): one normalized bill line item, the columns of
the purchase transactions DataFrame built by
`PurchaseTransactionsServer._extract_cols`. -/

structure PurchaseRow where
  product_name : String
  purchase_quantity : ℚ
  purchase_price : ℚ
  purchase_amount : ℚ
  purchase_transaction_date : String
  deriving DecidableEq

/-- CanonicalRow (Inventory): one normalized inventory item, the columns of
the inventory DataFrame built by `InventoryServer._extract_cols`. -/

structure InventoryRow where
  product_name : String
  inventory_price : ℚ
  deriving DecidableEq

/-- The `matched` indicator column added by
`pd.merge(..., how='left', indicator='matched')`.  `right_only` cannot occur
in a left join, so it is not modelled. -/

inductive Matched where
  | both : Matched
  | left_only : Matched
  deriving DecidableEq

/-- One row of the left-joined DataFrame before the delta columns are
added.  `inventory_price` is NaN exactly when the purchase row had no
inventory match (pandas fills the unmatched right columns with NaN). -/

structure MergedRow where
  product_name : String
  purchase_quantity : ℚ
  purchase_price : ℚ
  purchase_amount : ℚ
  purchase_transaction_date : String
  inventory_price : PFloat
  matched : Matched
  deriving DecidableEq

/-- DeltaRow: a `MergedRow` with the two computed columns. -/

structure DeltaRow where
  product_name : String
  purchase_quantity : ℚ
  purchase_price : ℚ
  purchase_amount : ℚ
  purchase_transaction_date : String
  inventory_price : PFloat
  matched : Matched
  pricing_delta : PFloat
  pricing_perc_delta : PFloat
  deriving DecidableEq

namespace PricingDeltaServer

/-- Model of `pd.merge(purchase_transactions_df, inventory_pricing_df,
on='product_name', how='left', indicator='matched')`: every purchase row
drives exactly one output group; with no inventory match it yields one row
with NaN inventory price and `left_only`, otherwise one row per matching
inventory row (fan-out), marked `both`. -/

def merge_left (pdf : List PurchaseRow) (idf : List InventoryRow) :
    List MergedRow :=
  pdf.flatMap fun p =>
    match idf.filter (fun i => i.product_name == p.product_name) with
    | [] =>
      [⟨p.product_name, p.purchase_quantity, p.purchase_price,
        p.purchase_amount, p.purchase_transaction_date, PFloat.nan,
        Matched.left_only⟩]
    | ms =>
      ms.map fun i =>
        ⟨p.product_name, p.purchase_quantity, p.purchase_price,
          p.purchase_amount, p.purchase_transaction_date,
          PFloat.num i.inventory_price, Matched.both⟩

/-- Row-wise form of the two column assignments
`merged_df['pricing_delta'] = inventory_price - purchase_price` and
`merged_df['pricing_perc_delta'] = round(pricing_delta / purchase_price * 100, 2)`. -/

def add_delta_cols (m : MergedRow) : DeltaRow :=
  let pricing_delta := PFloat.sub m.inventory_price (PFloat.num m.purchase_price)
  let pricing_perc_delta :=
    PFloat.round2
      (PFloat.mul (PFloat.div pricing_delta (PFloat.num m.purchase_price))
        (PFloat.num 100))
  ⟨m.product_name, m.purchase_quantity, m.purchase_price,
    m.purchase_amount, m.purchase_transaction_date, m.inventory_price,
    m.matched, pricing_delta, pricing_perc_delta⟩

/-- Model of `PricingDeltaServer.get_pricing_delta`: the left join followed
by the two computed columns. -/

def get_pricing_delta (pdf : List PurchaseRow) (idf : List InventoryRow) :
    List DeltaRow :=
  (merge_left pdf idf).map add_delta_cols

/-- Model of `PricingDeltaServer.get_empty_table_html`. -/

def get_empty_table_html (message : String) : String :=
  "<p>" ++ message ++ "</p>"

/-- Model of `PricingDeltaServer.format_pricing_delta_to_html`: on an
empty table it returns the pair of empty strings before any rendering; on
a non-empty table the source sorts by `pricing_perc_delta`, renames the
columns and renders through the external `pretty_html_table.build_table`
and pandas `to_excel`/base64 libraries, modelled here by the `render`
collaborator. -/

def format_pricing_delta_to_html (render : List DeltaRow → String × String)
    (rows : List DeltaRow) : String × String :=
  if rows = [] then ("", "") else render rows

/-- Model of the report-building branch of `PricingDeltaServer.serve`: an
empty purchase table short-circuits to the `No purchase transactions
found` message, an empty inventory table to `No inventory pricing found`
(each with an empty spreadsheet payload), and only otherwise is
`get_pricing_delta` invoked and formatted. -/

def serve (render : List DeltaRow → String × String)
    (pdf : List PurchaseRow) (idf : List InventoryRow) : String × String :=
  if pdf = [] then
    (get_empty_table_html ("No purchase transactions found"), "")
  else if idf = [] then
    (get_empty_table_html ("No inventory pricing found"), "")
  else
    format_pricing_delta_to_html render (get_pricing_delta pdf idf)

end PricingDeltaServer

namespace PricingDeltaProcessNode

/-- The instance attribute names `PricingDeltaProcessNode.__init__`
binds: the two process nodes and the two DataFrames initialised empty.
The `process` body instead reads
`self.purchase_transactions_slot_extractor` and
`self.inventory_slot_extractor`, names no method of the class (and no
caller in the repository) ever binds. -/
def bound_attributes : List String :=
  ["purchase_transactions_process_node", "inventory_process_node",
    "purchase_transactions_df", "inventory_pricing_df"]

/-- Python attribute lookup on a `PricingDeltaProcessNode` instance after
`__init__`: reading a name that was never bound raises
`AttributeError`. -/
def getattr (name : String) : Except PyErr Unit :=
  if name ∈ bound_attributes then Except.ok ()
  else Except.error PyErr.attributeErrorSlotExtractor

/-- Model of `PricingDeltaProcessNode.process`: the body first evaluates
`self.purchase_transactions_slot_extractor.process()` and then
`self.inventory_slot_extractor.process()`; only if both attribute lookups
succeeded would the emptiness short-circuit and the merge-and-delta
computation run.  `pdf` and `idf` are the tables the slot extractors
would deliver were the lookups to succeed. -/
def process (pdf : List PurchaseRow) (idf : List InventoryRow) :
    PyOutcome (List DeltaRow) :=
  match getattr ("purchase_transactions_slot_extractor") with
  | Except.error e => PyOutcome.exn e
  | Except.ok _ =>
    match getattr ("inventory_slot_extractor") with
    | Except.error e => PyOutcome.exn e
    | Except.ok _ =>
      if pdf = [] ∨ idf = [] then PyOutcome.ok []
      else PyOutcome.ok (PricingDeltaServer.get_pricing_delta pdf idf)

/-- Model of `PricingDeltaProcessNode.empty_value_reason`: the message
the caller shows for an empty result, determined by which stored
DataFrame is empty, purchase checked first.  (The two DataFrames it
reads are bound by `__init__`, so this method does not raise.) -/
def empty_value_reason (pdf : List PurchaseRow) (idf : List InventoryRow) :
    String :=
  if pdf = [] then "No purchase transactions found"
  else if idf = [] then "No inventory pricing found"
  else "slot extraction error"

end PricingDeltaProcessNode

/-- The `ItemBasedExpenseLineDetail` sub-structure of a bill line.  Each
`Option` field records whether the JSON key is present (`ItemRef.name`,
`Qty`, `UnitPrice`). -/

structure ItemDetail where
  itemRefName : Option String
  qty : Option ℚ
  unitPrice : Option ℚ
  deriving DecidableEq

/-- One entry of a bill's `Line` array: its `Amount`, its optional
`ItemBasedExpenseLineDetail` and its optional `Description`. -/

structure BillLine where
  amount : Option ℚ
  itemDetail : Option ItemDetail
  description : Option String
  deriving DecidableEq

/-- One `Bill` record: its `TxnDate` and its `Line` array. -/

structure Bill where
  txnDate : Option String
  lines : Option (List BillLine)
  deriving DecidableEq

/-- The `QueryResponse` object of a purchase page; `bill` is `none` when
the `Bill` collection key is absent. -/

structure PurchaseQueryResponse where
  bill : Option (List Bill)
  deriving DecidableEq

/-- A raw purchase page; `queryResponse` is `none` when the top-level
`QueryResponse` key is absent. -/

structure RawPurchasePage where
  queryResponse : Option PurchaseQueryResponse
  deriving DecidableEq

/-- One `Item` record of an inventory page: its `FullyQualifiedName` and
`UnitPrice`. -/

structure InventoryItem where
  fullyQualifiedName : Option String
  unitPrice : Option ℚ
  deriving DecidableEq

/-- The `QueryResponse` object of an inventory page; `item` is `none` when
the `Item` collection key is absent. -/

structure InventoryQueryResponse where
  item : Option (List InventoryItem)
  deriving DecidableEq

/-- A raw inventory page. -/

structure RawInventoryPage where
  queryResponse : Option InventoryQueryResponse
  deriving DecidableEq

/-- Resolution of the product name of one bill line, shared by both
purchase normalizers: `'Unknown'` when there is no
`ItemBasedExpenseLineDetail`, else `ItemRef.name` with the
`'Unknown Item'` default. -/

def resolved_product_name (line : BillLine) : String :=
  match line.itemDetail with
  | none => "Unknown"
  | some detail => detail.itemRefName.getD ("Unknown Item")

/-- The quantity of one bill line: `Qty` of the item detail, defaulting to
0, and 0 when there is no item detail. -/

def line_quantity (line : BillLine) : ℚ :=
  match line.itemDetail with
  | none => 0
  | some detail => detail.qty.getD 0

/-- The rate of one bill line: `UnitPrice` of the item detail, defaulting
to 0.0, and 0.0 when there is no item detail. -/

def line_rate (line : BillLine) : ℚ :=
  match line.itemDetail with
  | none => 0
  | some detail => detail.unitPrice.getD 0

/-- The amount of one bill line: `line.get('Amount', 0.0)`. -/

def line_amount (line : BillLine) : ℚ :=
  line.amount.getD 0

namespace PurchaseTransactionsServer

/-- Model of the per-line body of
`PurchaseTransactionsServer._extract_cols`: resolve name, quantity, rate
and amount, then skip the line (`continue`) when the name is the
`'Unknown Item'` sentinel or quantity, rate or amount is zero. -/

def extract_line (transaction_date : String) (line : BillLine) :
    Option PurchaseRow :=
  let product_name := resolved_product_name line
  let quantity := line_quantity line
  let rate := line_rate line
  let amount := line_amount line
  if product_name = "Unknown Item" ∨ quantity = 0 ∨ rate = 0 ∨ amount = 0 then
    none
  else
    some ⟨product_name, quantity, rate, amount, transaction_date⟩

/-- Model of `PurchaseTransactionsServer._extract_cols`: the indexing
`response['QueryResponse']['Bill']` raises a `KeyError` when either key is
absent; otherwise every bill's lines are scanned with `extract_line`,
using `bill.get('TxnDate', 'N/A')` and `bill.get('Line', [])`. -/

def extract_cols (page : RawPurchasePage) :
    Except PyErr (List PurchaseRow) :=
  match page.queryResponse with
  | none => Except.error PyErr.keyErrorQueryResponse
  | some qr =>
    match qr.bill with
    | none => Except.error PyErr.keyErrorBill
    | some bills =>
      Except.ok <| bills.flatMap fun b =>
        (b.lines.getD []).filterMap (extract_line (b.txnDate.getD ("N/A")))

end PurchaseTransactionsServer

namespace InventoryServer

/-- Model of the per-item body of `InventoryServer._extract_cols`: take
`FullyQualifiedName` with default `'N/A'` and `UnitPrice` with default
0.0, skipping records whose name did not resolve. -/

def extract_item (item : InventoryItem) : Option InventoryRow :=
  let product_name := item.fullyQualifiedName.getD ("N/A")
  if product_name = "N/A" then none
  else some ⟨product_name, item.unitPrice.getD 0⟩

/-- Model of `InventoryServer._extract_cols`: the code reads
`response['QueryResponse'].get('Item', [])`, so a missing `QueryResponse`
key raises a `KeyError` while a missing `Item` key falls back to the empty
collection. -/

def extract_cols (page : RawInventoryPage) :
    Except PyErr (List InventoryRow) :=
  match page.queryResponse with
  | none => Except.error PyErr.keyErrorQueryResponse
  | some qr => Except.ok ((qr.item.getD []).filterMap extract_item)

end InventoryServer

/-- The row shape produced by the older retriever-level purchase
normalizer `QBPurchaseTransactionsRetriever._extract_cols`, which keeps
only the product name and the rate. -/

structure ApiPurchaseRow where
  product_name : String
  purchase_price : ℚ
  deriving DecidableEq

namespace QBPurchaseTransactionsRetriever

/-- Model of the per-line body of
`QBPurchaseTransactionsRetriever._extract_cols` (the legacy normalizer
under `api/retrievers`): same name and rate resolution, then the line's
non-empty `Description` is concatenated onto the product name; every line
is kept (no zero filtering in this version). -/

def extract_line (line : BillLine) : ApiPurchaseRow :=
  let product_name := resolved_product_name line
  let rate := line_rate line
  let description := (line.description.getD "")
  let product_name :=
    if description = "" then product_name
    else product_name ++ " - " ++ description
  ⟨product_name, rate⟩

/-- Model of `QBPurchaseTransactionsRetriever._extract_cols`: raises on a
missing `QueryResponse` or `Bill` key, otherwise maps `extract_line` over
every line of every bill. -/

def extract_cols (page : RawPurchasePage) :
    Except PyErr (List ApiPurchaseRow) :=
  match page.queryResponse with
  | none => Except.error PyErr.keyErrorQueryResponse
  | some qr =>
    match qr.bill with
    | none => Except.error PyErr.keyErrorBill
    | some bills =>
      Except.ok <| bills.flatMap fun b =>
        (b.lines.getD []).map extract_line

end QBPurchaseTransactionsRetriever

namespace QBAPIRetriever

/-- The page size `QBAPIRetriever.__init__` configures
(`self.page_size = 100`). -/

def page_size : Nat := 100

/-- Model of `QBAPIRetriever._call_api`: the upstream is a script of the
successive responses the server would hand to `_call_api_once` as the
offset advances; each iteration appends the response and stops as soon as
a page carries fewer than `ps` items.  `countOf` is the concrete
retriever's item count (which may raise a `KeyError`); running off the end
of the script models a loop that would issue yet another call. -/

def call_api (ps : Nat) (countOf : α → Except PyErr Nat) :
    List α → Except PyErr (List α)
  | [] => Except.error PyErr.upstreamExhausted
  | p :: rest =>
    match countOf p with
    | Except.error e => Except.error e
    | Except.ok n =>
      if n < ps then Except.ok [p]
      else
        match call_api ps countOf rest with
        | Except.error e => Except.error e
        | Except.ok l => Except.ok (p :: l)

end QBAPIRetriever

/-- Model of `QBPurchaseTransactionsAPIRetriever._call_api_once`'s item
count, `len(response_json['QueryResponse']['Bill'])`: a `KeyError` when
either key is absent, the length of the `Bill` collection otherwise. -/

def countPurchase (page : RawPurchasePage) : Except PyErr Nat :=
  match page.queryResponse with
  | none => Except.error PyErr.keyErrorQueryResponse
  | some qr =>
    match qr.bill with
    | none => Except.error PyErr.keyErrorBill
    | some bills => Except.ok bills.length

/-- The page an upstream with zero matching records returns when it keeps
the `Bill` collection present and empty. -/

def emptyBillPage : RawPurchasePage := ⟨some ⟨some []⟩⟩

/-- TenantCredential as stored in the `companies` table: the fields
`QBOOAuthManager` reads and writes for one realm.  `Option` marks nullable
columns; instants are modelled as natural-number timestamps. -/

structure StoredCompany where
  access_token : Option String
  refresh_token : Option String
  token_type : Option String
  expires_in : Option Nat
  refresh_token_expires_in : Option Nat
  expires_at : Option Nat
  deriving DecidableEq

/-- The JSON body a successful token-endpoint call returns;
`Option` marks keys the server may omit. -/

structure TokenResponse where
  access_token : Option String
  refresh_token : Option String
  token_type : Option String
  expires_in : Option Nat
  x_refresh_token_expires_in : Option Nat
  deriving DecidableEq

/-- The dictionary `refresh_access_token` returns on success. -/

structure RefreshInfo where
  access_token : Option String
  refresh_token : Option String
  expires_in : Option Nat
  expires_at : Nat
  deriving DecidableEq

/-- Python `try/finally` semantics: an exception raised while running the
`finally` block replaces whatever the `try` body was about to produce. -/

def pyTryFinally {α : Type} (body : PyOutcome α) (fin : PyOutcome Unit) :
    PyOutcome α :=
  match fin with
  | PyOutcome.ok _ => body
  | PyOutcome.exn e => PyOutcome.exn e

namespace QBOOAuthManager

/-- Model of `QBOOAuthManager.refresh_access_token` for one realm.  The
stored credential row is passed in and returned explicitly; `transport`
is the outcome of the `requests.post` to the token endpoint together with
`raise_for_status`.  A missing row or missing refresh token returns
`None`; a transport failure is caught by the inner `except` and returns
`None` with the row untouched; on success every token field is
overwritten (the refresh token only if the response carries a new one)
and `expires_at` is recomputed from the response TTL with the 3600 s
default. -/

def refresh_access_token (now : Nat) (stored : Option StoredCompany)
    (transport : Except PyErr TokenResponse) :
    Option RefreshInfo × Option StoredCompany :=
  match stored with
  | none => (none, none)
  | some company =>
    match company.refresh_token with
    | none => (none, some company)
    | some rtok =>
      match transport with
      | Except.error _ => (none, some company)
      | Except.ok td =>
        let updated : StoredCompany :=
          { access_token := td.access_token
            refresh_token := some (td.refresh_token.getD rtok)
            token_type := company.token_type
            expires_in := td.expires_in
            refresh_token_expires_in := td.x_refresh_token_expires_in
            expires_at := some (now + td.expires_in.getD 3600) }
        (some ⟨updated.access_token, updated.refresh_token,
            updated.expires_in, now + td.expires_in.getD 3600⟩,
          some updated)

/-- Model of `QBOOAuthManager.get_valid_access_token_not_throws`.
`session` is the outcome of `DB.get_session()`.  The whole body is a
`try` whose `except Exception` returns `None`, followed by
`finally: db.close()`; when `DB.get_session()` itself raised, the local
`db` was never bound, so the `finally` clause raises `UnboundLocalError`,
which replaces the pending `return None` — this is the one path on which
the function raises.  Otherwise: no row or no access token returns
`None`; a truthy `expires_at` not later than now triggers a refresh whose
`access_token` entry (or `None`) is returned; a fresh token is returned
unchanged without touching the network. -/

def get_valid_access_token_not_throws (now : Nat)
    (session : Except PyErr Unit) (stored : Option StoredCompany)
    (transport : Except PyErr TokenResponse) :
    PyOutcome (Option String) × Option StoredCompany :=
  match session with
  | Except.error _ =>
    (pyTryFinally (PyOutcome.ok none) (PyOutcome.exn PyErr.unboundLocalDb),
      stored)
  | Except.ok _ =>
    match stored with
    | none => (PyOutcome.ok none, stored)
    | some company =>
      match company.access_token with
      | none => (PyOutcome.ok none, stored)
      | some tok =>
        match company.expires_at with
        | none => (PyOutcome.ok (some tok), stored)
        | some exp =>
          if exp ≤ now then
            let res := refresh_access_token now stored transport
            match res.1 with
            | some info => (PyOutcome.ok info.access_token, res.2)
            | none => (PyOutcome.ok none, res.2)
          else (PyOutcome.ok (some tok), stored)

end QBOOAuthManager

/-- The end-to-end scenario rows of the spec. -/

def widgetAPurchase : PurchaseRow := ⟨"Widget A", 10, 5, 50, "2025-01-01"⟩

/-- The inventory row of the end-to-end scenario. -/

def widgetAInventory : InventoryRow := ⟨"Widget A", 6⟩

/-- The delta row the scenario must produce. -/

def widgetADelta : DeltaRow :=
  ⟨"Widget A", 10, 5, 50, "2025-01-01", PFloat.num 6, Matched.both,
    PFloat.num 1, PFloat.num 20⟩

/-- A purchase row whose price is zero, for exercising the division by
zero in the delta computation. -/

def zeroPricePurchase : PurchaseRow := ⟨"Widget A", 10, 0, 50, "2025-01-01"⟩

/-- The delta row the zero-price scenario produces. -/

def zeroPriceDelta : DeltaRow :=
  ⟨"Widget A", 10, 0, 50, "2025-01-01", PFloat.num 6, Matched.both,
    PFloat.num 6, PFloat.inf⟩

/-- A bill line with quantity zero but non-zero rate and amount. -/

def lineQtyZero : BillLine := ⟨some 7, some ⟨some ("Widget"), some 0, some 3⟩, none⟩

/-- A bill line with rate zero but non-zero quantity and amount. -/

def lineRateZero : BillLine := ⟨some 7, some ⟨some ("Widget"), some 2, some 0⟩, none⟩

/-- A bill line with amount zero but non-zero quantity and rate. -/

def lineAmountZero : BillLine := ⟨some 0, some ⟨some ("Widget"), some 2, some 3⟩, none⟩

/-- A page with one bill holding one fully valid line. -/

def validPurchasePage : RawPurchasePage :=
  ⟨some ⟨some [⟨some ("2025-01-01"), some [⟨some 50, some ⟨some ("Widget A"), some 10, some 5⟩, none⟩]⟩]⟩⟩

/-- An inventory page whose `QueryResponse` is present but whose `Item`
collection key is absent entirely. -/

def inventoryPageMissingItemKey : RawInventoryPage := ⟨some ⟨none⟩⟩

/-- A bill line for the Widget item carrying a non-empty description. -/

def lineWithDescription : BillLine :=
  ⟨some 2, some ⟨some ("Widget"), some 1, some 2⟩, some ("blue")⟩

/-- The row the pipeline normalizer produces from the described line. -/

def widgetRowFromDescribedLine : PurchaseRow := ⟨"Widget", 1, 2, 2, "2025-01-01"⟩

/-- A credential that is still valid at time 500. -/

def freshCompany : StoredCompany :=
  ⟨some ("tokA"), some ("rtokA"), some ("bearer"), some 3600, some 8726400,
    some 1000⟩

/-- A credential already expired at time 500. -/

def expiredCompany : StoredCompany :=
  ⟨some ("tokA"), some ("rtokA"), some ("bearer"), some 3600, some 8726400,
    some 10⟩

/-- A successful token-endpoint response carrying rotated tokens. -/

def newTokenResponse : TokenResponse :=
  ⟨some ("tokB"), some ("rtokB"), some ("bearer"), some 3600, some 8726400⟩

/-- A trivial stand-in for the external rendering collaborators. -/

def trivialRender : List DeltaRow → String × String := fun _ => ("", "")

/-- Shape of an IEEE division of a finite value by the zero purchase
price: NaN for a zero numerator, a signed infinity otherwise. -/

lemma PFloat.div_num_zero (a : ℚ) :
    PFloat.div (PFloat.num a) (PFloat.num 0) =
      if a = 0 then PFloat.nan else if 0 < a then PFloat.inf else PFloat.negInf := by
  simp [PFloat.div]

namespace PricingDeltaServer

/-- Every row of the left join is either an unmatched purchase row, whose
inventory price is the NaN fill value, or carries the price of an inventory
row with the same product name. -/

lemma mem_merge_left {pdf : List PurchaseRow} {idf : List InventoryRow}
    {m : MergedRow} (hm : m ∈ merge_left pdf idf) :
    (m.matched = Matched.left_only ∧ m.inventory_price = PFloat.nan) ∨
      (m.matched = Matched.both ∧
        ∃ i ∈ idf, i.product_name = m.product_name ∧
          m.inventory_price = PFloat.num i.inventory_price) := by
  rw [merge_left, List.mem_flatMap] at hm
  obtain ⟨p, _, hmem⟩ := hm
  rcases hfil : idf.filter (fun i => i.product_name == p.product_name) with
    _ | ⟨a, as⟩
  · rw [hfil] at hmem
    simp only [List.mem_singleton] at hmem
    subst hmem
    exact Or.inl ⟨rfl, rfl⟩
  · rw [hfil] at hmem
    rw [List.mem_map] at hmem
    obtain ⟨i, hi, him⟩ := hmem
    have hidf : i ∈ idf ∧ (i.product_name == p.product_name) = true := by
      have : i ∈ idf.filter (fun i => i.product_name == p.product_name) := by
        rw [hfil]; exact hi
      exact List.mem_filter.mp this
    refine Or.inr ?_
    subst him
    refine ⟨rfl, i, hidf.1, ?_, rfl⟩
    exact beq_iff_eq.mp hidf.2

/-- Every output row of the delta computation is `add_delta_cols` of a row
of the left join. -/

lemma mem_get_pricing_delta {pdf : List PurchaseRow} {idf : List InventoryRow}
    {r : DeltaRow} (hr : r ∈ get_pricing_delta pdf idf) :
    ∃ m ∈ merge_left pdf idf, r = add_delta_cols m := by
  rw [get_pricing_delta, List.mem_map] at hr
  obtain ⟨m, hm, hrm⟩ := hr
  exact ⟨m, hm, hrm.symm⟩

end PricingDeltaServer

/-- A line that `PurchaseTransactionsServer.extract_line` keeps has
non-zero quantity, rate and amount and a resolved product name. -/

lemma extract_line_eq_some {d : String} {line : BillLine} {r : PurchaseRow}
    (h : PurchaseTransactionsServer.extract_line d line = some r) :
    r.purchase_quantity ≠ 0 ∧ r.purchase_price ≠ 0 ∧
      r.purchase_amount ≠ 0 ∧ r.product_name ≠ "Unknown Item" := by
  simp only [PurchaseTransactionsServer.extract_line] at h
  split at h
  · exact absurd h (by simp)
  · rename_i hc
    push_neg at hc
    obtain ⟨h1, h2, h3, h4⟩ := hc
    cases h
    exact ⟨h2, h3, h4, h1⟩

/-- Kept rows come from `extract_line` applied to some line of some bill. -/

lemma mem_extract_cols {page : RawPurchasePage} {rows : List PurchaseRow}
    {r : PurchaseRow}
    (h : PurchaseTransactionsServer.extract_cols page = Except.ok rows)
    (hr : r ∈ rows) :
    ∃ b line, PurchaseTransactionsServer.extract_line
      (Bill.txnDate b |>.getD ("N/A")) line = some r := by
  obtain ⟨qrOpt⟩ := page
  rcases qrOpt with _ | qr
  · exact absurd h (by simp [PurchaseTransactionsServer.extract_cols])
  · rcases hb : qr.bill with _ | bills
    · rw [PurchaseTransactionsServer.extract_cols] at h
      simp only [hb] at h
      exact absurd h (by simp)
    · rw [PurchaseTransactionsServer.extract_cols] at h
      simp only [hb] at h
      have hrows := (Except.ok.inj h).symm
      subst hrows
      rw [List.mem_flatMap] at hr
      obtain ⟨b, _, hrr⟩ := hr
      rw [List.mem_filterMap] at hrr
      obtain ⟨line, _, hsome⟩ := hrr
      exact ⟨b, line, hsome⟩

namespace QBAPIRetriever

/-- A successful retrieval run returns exactly the pages through the
first short one: the result is a non-empty prefix of the response script
whose last page is short and whose earlier pages are all full. -/

lemma call_api_ok_spec {α : Type} (ps : Nat) (countOf : α → Except PyErr Nat) :
    ∀ (pages l : List α), call_api ps countOf pages = Except.ok l →
      l ≠ [] ∧ l = pages.take l.length ∧
        (∃ front last, l = front ++ [last] ∧
          (∃ n, countOf last = Except.ok n ∧ n < ps) ∧
          (∀ q ∈ front, ∃ n, countOf q = Except.ok n ∧ ps ≤ n)) := by
  intro pages
  induction pages with
  | nil =>
    intro l h
    exact absurd h (by simp [call_api])
  | cons p rest ih =>
    intro l h
    rw [call_api] at h
    rcases hc : countOf p with e | n
    · rw [hc] at h
      exact absurd h (by simp)
    · rw [hc] at h
      dsimp only at h
      by_cases hn : n < ps
      · rw [if_pos hn] at h
        have hl : l = [p] := (Except.ok.inj h).symm
        subst hl
        exact ⟨by simp, by simp, [], p, by simp, ⟨n, hc, hn⟩, by simp⟩
      · rw [if_neg hn] at h
        rcases hrec : call_api ps countOf rest with e | l1
        · rw [hrec] at h
          exact absurd h (by simp)
        · rw [hrec] at h
          dsimp only at h
          have hl : l = p :: l1 := (Except.ok.inj h).symm
          subst hl
          obtain ⟨hne, hpre, front, last, hsplit, hshort, hfull⟩ := ih l1 hrec
          refine ⟨by simp, ?_, p :: front, last, by simp [hsplit], hshort, ?_⟩
          · simp only [List.length_cons, List.take_succ_cons]
            exact congrArg (p :: ·) hpre
          · intro q hq
            rcases List.mem_cons.mp hq with hqp | hqf
            · exact hqp ▸ ⟨n, hc, le_of_not_lt hn⟩
            · exact hfull q hqf

end QBAPIRetriever

/-- C1: the delta computation left-joins purchases against inventory on
exact product-name equality; every output row satisfies
`pricing_delta = inventory_price - purchase_price` and
`pricing_perc_delta = round(pricing_delta / purchase_price * 100, 2)`, a
matched row carries the price of an inventory row with the same product
name, and the concrete Widget A scenario yields exactly one row with
`pricing_delta = 1.00`, `pricing_perc_delta = 20.00` and `matched = both`. -/

theorem claim_C1_delta_formula_and_scenario :
    (∀ (pdf : List PurchaseRow) (idf : List InventoryRow) (r : DeltaRow),
        r ∈ PricingDeltaServer.get_pricing_delta pdf idf →
        r.pricing_delta = PFloat.sub r.inventory_price (PFloat.num r.purchase_price) ∧
        r.pricing_perc_delta =
          PFloat.round2
            (PFloat.mul (PFloat.div r.pricing_delta (PFloat.num r.purchase_price))
              (PFloat.num 100)) ∧
        (r.matched = Matched.both →
          ∃ i ∈ idf, i.product_name = r.product_name ∧
            r.inventory_price = PFloat.num i.inventory_price)) ∧
    PricingDeltaServer.get_pricing_delta [widgetAPurchase] [widgetAInventory]
      = [widgetADelta] := by
  constructor
  · intro pdf idf r hr
    obtain ⟨m, hm, rfl⟩ := PricingDeltaServer.mem_get_pricing_delta hr
    refine ⟨rfl, rfl, fun hb => ?_⟩
    rcases PricingDeltaServer.mem_merge_left hm with ⟨hml, _⟩ | ⟨_, i, hi, hname, hprice⟩
    · have hb' : m.matched = Matched.both := hb
      exact absurd (hml.symm.trans hb') (by decide)
    · exact ⟨i, hi, hname, hprice⟩
  · norm_num [PricingDeltaServer.get_pricing_delta,
      PricingDeltaServer.merge_left, PricingDeltaServer.add_delta_cols,
      PFloat.sub, PFloat.div, PFloat.mul, PFloat.round2, roundHalfEven,
      List.filter, widgetAPurchase, widgetAInventory, widgetADelta]

/-- Witness for C1: the universally quantified part evaluated on the
Widget A scenario. -/

theorem claim_C1_witness :
    widgetADelta.pricing_delta
        = PFloat.sub widgetADelta.inventory_price (PFloat.num widgetADelta.purchase_price) ∧
    widgetADelta.pricing_perc_delta
        = PFloat.round2
            (PFloat.mul
              (PFloat.div widgetADelta.pricing_delta (PFloat.num widgetADelta.purchase_price))
              (PFloat.num 100)) ∧
    (widgetADelta.matched = Matched.both →
      ∃ i ∈ [widgetAInventory], i.product_name = widgetADelta.product_name ∧
        widgetADelta.inventory_price = PFloat.num i.inventory_price) :=
  claim_C1_delta_formula_and_scenario.1 [widgetAPurchase] [widgetAInventory]
    widgetADelta
    (by rw [claim_C1_delta_formula_and_scenario.2]; exact List.mem_singleton.mpr rfl)

/-- C2 counterexample: a zero purchase price joined against a nonzero
inventory price makes `pricing_perc_delta` plus infinity — a silently
produced infinity, not NaN, refuting the claim that the value is always
null/NaN. -/

theorem claim_C2_counterexample :
    (PricingDeltaServer.get_pricing_delta [zeroPricePurchase] [widgetAInventory]).map
        DeltaRow.pricing_perc_delta = [PFloat.inf] ∧
      PFloat.inf ≠ PFloat.nan := by
  constructor
  · norm_num [PricingDeltaServer.get_pricing_delta,
      PricingDeltaServer.merge_left, PricingDeltaServer.add_delta_cols,
      PFloat.sub, PFloat.div, PFloat.mul, PFloat.round2, roundHalfEven,
      List.filter, zeroPricePurchase, widgetAInventory]
  · decide

/-- C2 amended: computing `pricing_perc_delta` for a row with zero
purchase price never raises (the computation is a total function) and the
value is NaN or a signed infinity — NaN when the row is unmatched or the
delta is zero, a silently produced infinity when the delta is a nonzero
finite number. -/

theorem claim_C2_amended_zero_price_no_raise :
    ∀ (pdf : List PurchaseRow) (idf : List InventoryRow) (r : DeltaRow),
      r ∈ PricingDeltaServer.get_pricing_delta pdf idf →
      r.purchase_price = 0 →
      r.pricing_perc_delta = PFloat.nan ∨ r.pricing_perc_delta = PFloat.inf ∨
        r.pricing_perc_delta = PFloat.negInf := by
  intro pdf idf r hr h0
  obtain ⟨m, hm, rfl⟩ := PricingDeltaServer.mem_get_pricing_delta hr
  have h0' : m.purchase_price = 0 := h0
  have hperc : (PricingDeltaServer.add_delta_cols m).pricing_perc_delta
      = PFloat.round2
          (PFloat.mul
            (PFloat.div
              (PFloat.sub m.inventory_price (PFloat.num m.purchase_price))
              (PFloat.num m.purchase_price))
            (PFloat.num 100)) := rfl
  rw [hperc, h0']
  rcases PricingDeltaServer.mem_merge_left hm with ⟨_, hnan⟩ | ⟨_, i, _, _, hnum⟩
  · rw [hnan]
    exact Or.inl rfl
  · rw [hnum]
    have hsub : PFloat.sub (PFloat.num i.inventory_price) (PFloat.num 0)
        = PFloat.num i.inventory_price := by
      simp [PFloat.sub]
    rw [hsub, PFloat.div_num_zero]
    rcases lt_trichotomy i.inventory_price 0 with hlt | heq | hgt
    · rw [if_neg hlt.ne, if_neg (not_lt.mpr hlt.le)]
      refine Or.inr (Or.inr ?_)
      norm_num [PFloat.mul, PFloat.round2]
    · rw [if_pos heq]
      exact Or.inl rfl
    · rw [if_neg hgt.ne', if_pos hgt]
      refine Or.inr (Or.inl ?_)
      norm_num [PFloat.mul, PFloat.round2]

/-- Witness for the amended C2, at the zero-price scenario row. -/

theorem claim_C2_witness :
    zeroPriceDelta.pricing_perc_delta = PFloat.nan ∨
      zeroPriceDelta.pricing_perc_delta = PFloat.inf ∨
      zeroPriceDelta.pricing_perc_delta = PFloat.negInf :=
  claim_C2_amended_zero_price_no_raise [zeroPricePurchase] [widgetAInventory]
    zeroPriceDelta
    (by
      rw [show PricingDeltaServer.get_pricing_delta [zeroPricePurchase] [widgetAInventory]
          = [zeroPriceDelta] by
        norm_num [PricingDeltaServer.get_pricing_delta,
          PricingDeltaServer.merge_left, PricingDeltaServer.add_delta_cols,
          PFloat.sub, PFloat.div, PFloat.mul, PFloat.round2, roundHalfEven,
          List.filter, zeroPricePurchase, widgetAInventory, zeroPriceDelta]]
      exact List.mem_singleton.mpr rfl)
    rfl

/-- C3: a retrieval run returns exactly the pages up to and including the
first page with fewer than `ps` items (all earlier pages are full), and a
first page representing zero matching records (an empty `Bill`
collection) ends the run at once with a single-element result list
holding that empty page — not an empty list and not an error. -/

theorem claim_C3_pagination_terminates :
    (∀ (ps : Nat) (countOf : RawPurchasePage → Except PyErr Nat)
        (pages l : List RawPurchasePage),
        QBAPIRetriever.call_api ps countOf pages = Except.ok l →
        l ≠ [] ∧ l = pages.take l.length ∧
          (∃ front last, l = front ++ [last] ∧
            (∃ n, countOf last = Except.ok n ∧ n < ps) ∧
            (∀ q ∈ front, ∃ n, countOf q = Except.ok n ∧ ps ≤ n))) ∧
    (∀ rest : List RawPurchasePage,
        QBAPIRetriever.call_api QBAPIRetriever.page_size countPurchase
          (emptyBillPage :: rest) = Except.ok [emptyBillPage]) := by
  constructor
  · intro ps countOf pages l h
    exact QBAPIRetriever.call_api_ok_spec ps countOf pages l h
  · intro rest
    rfl

/-- Witness for C3: a two-page script (a full page of one bill with the
page size set to one, then a short page) stops exactly after the second
page, and the zero-record script stops after its single empty page. -/

theorem claim_C3_witness :
    ([emptyBillPage] ≠ ([] : List RawPurchasePage) ∧
      [emptyBillPage] = [emptyBillPage].take 1 ∧
        (∃ front last, [emptyBillPage] = front ++ [last] ∧
          (∃ n, countPurchase last = Except.ok n ∧ n < QBAPIRetriever.page_size) ∧
          (∀ q ∈ front, ∃ n, countPurchase q = Except.ok n ∧
            QBAPIRetriever.page_size ≤ n))) ∧
    QBAPIRetriever.call_api QBAPIRetriever.page_size countPurchase
      [emptyBillPage] = Except.ok [emptyBillPage] :=
  ⟨claim_C3_pagination_terminates.1 QBAPIRetriever.page_size countPurchase
      [emptyBillPage] [emptyBillPage] rfl,
    claim_C3_pagination_terminates.2 []⟩

/-- C4: a transport failure during refresh returns `None` (Unavailable)
and leaves every field of the stored credential unchanged — the returned
store is the very row that was passed in. -/

theorem claim_C4_refresh_failure_preserves_credential :
    ∀ (now : Nat) (company : StoredCompany) (e : PyErr),
      QBOOAuthManager.refresh_access_token now (some company) (Except.error e)
        = (none, some company) := by
  intro now company e
  obtain ⟨a, rt, tt, ei, rei, ea⟩ := company
  cases rt <;> rfl

/-- C5: with the store reachable, no stored credential returns `None`
without raising; a stored, unexpired credential is returned unchanged and
the call's result does not depend on (never touches) the token endpoint;
an expired credential triggers a refresh and the call returns the
refreshed token, or `None` when the refresh failed. -/

theorem claim_C5_get_valid_access_token :
    ∀ (now : Nat) (stored : Option StoredCompany)
      (transport : Except PyErr TokenResponse),
      (stored = none →
        QBOOAuthManager.get_valid_access_token_not_throws now (Except.ok ())
            stored transport = (PyOutcome.ok none, none)) ∧
      (∀ (company : StoredCompany) (tok : String) (exp : Nat),
        stored = some company → company.access_token = some tok →
        company.expires_at = some exp → now < exp →
        QBOOAuthManager.get_valid_access_token_not_throws now (Except.ok ())
            stored transport = (PyOutcome.ok (some tok), stored)) ∧
      (∀ (company : StoredCompany) (tok : String) (exp : Nat),
        stored = some company → company.access_token = some tok →
        company.expires_at = some exp → exp ≤ now →
        (QBOOAuthManager.get_valid_access_token_not_throws now (Except.ok ())
            stored transport).1
          = PyOutcome.ok
              ((QBOOAuthManager.refresh_access_token now stored transport).1.bind
                RefreshInfo.access_token)) := by
  intro now stored transport
  refine ⟨?_, ?_, ?_⟩
  · intro h
    subst h
    rfl
  · intro company tok exp hs ha he hlt
    subst hs
    have hnle : ¬ exp ≤ now := not_le.mpr hlt
    simp [QBOOAuthManager.get_valid_access_token_not_throws, ha, he, hnle]
  · intro company tok exp hs ha he hle
    subst hs
    simp only [QBOOAuthManager.get_valid_access_token_not_throws, ha, he,
      if_pos hle]
    rcases hres : (QBOOAuthManager.refresh_access_token now (some company)
        transport).1 with _ | info
    · simp [hres]
    · simp [hres]

/-- Witness for C5: the three branches at time 500 with concrete
credentials. -/

theorem claim_C5_witness :
    QBOOAuthManager.get_valid_access_token_not_throws 500 (Except.ok ())
        none (Except.ok newTokenResponse) = (PyOutcome.ok none, none) ∧
    QBOOAuthManager.get_valid_access_token_not_throws 500 (Except.ok ())
        (some freshCompany) (Except.ok newTokenResponse)
      = (PyOutcome.ok (some ("tokA")), some freshCompany) ∧
    (QBOOAuthManager.get_valid_access_token_not_throws 500 (Except.ok ())
        (some expiredCompany) (Except.ok newTokenResponse)).1
      = PyOutcome.ok
          ((QBOOAuthManager.refresh_access_token 500 (some expiredCompany)
              (Except.ok newTokenResponse)).1.bind RefreshInfo.access_token) :=
  ⟨(claim_C5_get_valid_access_token 500 none (Except.ok newTokenResponse)).1 rfl,
    (claim_C5_get_valid_access_token 500 (some freshCompany)
        (Except.ok newTokenResponse)).2.1 freshCompany ("tokA") 1000 rfl rfl rfl
      (by norm_num),
    (claim_C5_get_valid_access_token 500 (some expiredCompany)
        (Except.ok newTokenResponse)).2.2 expiredCompany ("tokA") 10 rfl rfl rfl
      (by norm_num)⟩

/-- C6 (code bug): `PricingDeltaProcessNode.process` never reaches the
emptiness short-circuit: its body reads the never-bound
`purchase_transactions_slot_extractor` attribute (`__init__` binds
`purchase_transactions_process_node`), so every call — in particular on
empty input tables — raises `AttributeError` instead of returning the
empty result the claim describes.  The serve path does behave as the
claim says: the two distinct short-circuit pages with empty export
payloads, and the pair of empty strings from the formatter on an empty
table. -/
theorem claim_C6_process_node_attribute_error :
    (∀ (pdf : List PurchaseRow) (idf : List InventoryRow),
        PricingDeltaProcessNode.process pdf idf
          = PyOutcome.exn PyErr.attributeErrorSlotExtractor) ∧
    PricingDeltaProcessNode.process [] []
        = PyOutcome.exn PyErr.attributeErrorSlotExtractor ∧
    PricingDeltaServer.serve trivialRender [] [widgetAInventory]
        = ("<p>No purchase transactions found</p>", "") ∧
    PricingDeltaServer.serve trivialRender [widgetAPurchase] []
        = ("<p>No inventory pricing found</p>", "") ∧
    PricingDeltaServer.format_pricing_delta_to_html trivialRender [] = ("", "") :=
  ⟨fun _ _ => rfl, rfl, rfl, rfl, rfl⟩

/-- C7: purchase normalization keeps a bill line only if quantity, rate
and amount are all non-zero and the product name is not the
`'Unknown Item'` sentinel, and a line with any of the three fields zero is
skipped whatever the other two are. -/

theorem claim_C7_zero_noise_filter :
    (∀ (page : RawPurchasePage) (rows : List PurchaseRow),
        PurchaseTransactionsServer.extract_cols page = Except.ok rows →
        ∀ r ∈ rows,
          r.purchase_quantity ≠ 0 ∧ r.purchase_price ≠ 0 ∧
            r.purchase_amount ≠ 0 ∧ r.product_name ≠ "Unknown Item") ∧
    (∀ (d : String) (line : BillLine),
        line_quantity line = 0 ∨ line_rate line = 0 ∨ line_amount line = 0 →
        PurchaseTransactionsServer.extract_line d line = none) := by
  constructor
  · intro page rows h r hr
    obtain ⟨_, line, hsome⟩ := mem_extract_cols h hr
    exact extract_line_eq_some hsome
  · intro d line h
    simp only [PurchaseTransactionsServer.extract_line]
    rw [if_pos (Or.inr h)]

/-- Witness for C7: the three single-zero lines are each dropped, and the
retained row of a valid page has all fields non-zero. -/

theorem claim_C7_witness :
    PurchaseTransactionsServer.extract_line ("2025-01-01") lineQtyZero = none ∧
    PurchaseTransactionsServer.extract_line ("2025-01-01") lineRateZero = none ∧
    PurchaseTransactionsServer.extract_line ("2025-01-01") lineAmountZero = none ∧
    (widgetAPurchase.purchase_quantity ≠ 0 ∧ widgetAPurchase.purchase_price ≠ 0 ∧
      widgetAPurchase.purchase_amount ≠ 0 ∧ widgetAPurchase.product_name ≠ "Unknown Item") :=
  ⟨claim_C7_zero_noise_filter.2 ("2025-01-01") lineQtyZero
      (Or.inl (by norm_num [line_quantity, lineQtyZero])),
    claim_C7_zero_noise_filter.2 ("2025-01-01") lineRateZero
      (Or.inr (Or.inl (by norm_num [line_rate, lineRateZero]))),
    claim_C7_zero_noise_filter.2 ("2025-01-01") lineAmountZero
      (Or.inr (Or.inr (by norm_num [line_amount, lineAmountZero]))),
    claim_C7_zero_noise_filter.1 validPurchasePage [widgetAPurchase]
      (by
        norm_num [PurchaseTransactionsServer.extract_cols,
          PurchaseTransactionsServer.extract_line, resolved_product_name,
          line_quantity, line_rate, line_amount, validPurchasePage,
          widgetAPurchase, List.filterMap]
        rfl)
      widgetAPurchase (List.mem_singleton.mpr rfl)⟩

/-- C8 counterexample: the inventory normalizer reads
`response['QueryResponse'].get('Item', [])`, so a page whose top-level
shape lacks the `Item` collection key entirely yields an empty table
instead of raising the typed malformed-input error the claim requires. -/

theorem claim_C8_counterexample :
    InventoryServer.extract_cols inventoryPageMissingItemKey
      = Except.ok ([] : List InventoryRow) := rfl

/-- C8 amended: the purchase normalizer raises a `KeyError` when the
`Bill` collection key (or the `QueryResponse` envelope) is absent, and
either normalizer raises when `QueryResponse` is absent; the inventory
normalizer treats a missing `Item` key as an empty page; a structurally
valid page whose collection is present but empty yields an empty table
without raising. -/

theorem claim_C8_amended_malformed_pages :
    (∀ page : RawPurchasePage, page.queryResponse = none →
        PurchaseTransactionsServer.extract_cols page
          = Except.error PyErr.keyErrorQueryResponse) ∧
    (∀ qr : PurchaseQueryResponse, qr.bill = none →
        PurchaseTransactionsServer.extract_cols ⟨some qr⟩
          = Except.error PyErr.keyErrorBill) ∧
    (∀ page : RawInventoryPage, page.queryResponse = none →
        InventoryServer.extract_cols page
          = Except.error PyErr.keyErrorQueryResponse) ∧
    (∀ qr : InventoryQueryResponse, qr.item = none →
        InventoryServer.extract_cols ⟨some qr⟩ = Except.ok []) ∧
    PurchaseTransactionsServer.extract_cols ⟨some ⟨some []⟩⟩ = Except.ok [] ∧
    InventoryServer.extract_cols ⟨some ⟨some []⟩⟩ = Except.ok [] := by
  refine ⟨?_, ?_, ?_, ?_, rfl, rfl⟩
  · intro page h
    obtain ⟨qrOpt⟩ := page
    cases h
    rfl
  · intro qr h
    obtain ⟨billOpt⟩ := qr
    cases h
    rfl
  · intro page h
    obtain ⟨qrOpt⟩ := page
    cases h
    rfl
  · intro qr h
    obtain ⟨itemOpt⟩ := qr
    cases h
    rfl

/-- Witness for the amended C8, at concrete malformed and empty pages. -/

theorem claim_C8_witness :
    PurchaseTransactionsServer.extract_cols ⟨none⟩
        = Except.error PyErr.keyErrorQueryResponse ∧
    PurchaseTransactionsServer.extract_cols ⟨some ⟨none⟩⟩
        = Except.error PyErr.keyErrorBill ∧
    InventoryServer.extract_cols ⟨none⟩
        = Except.error PyErr.keyErrorQueryResponse ∧
    InventoryServer.extract_cols ⟨some ⟨none⟩⟩ = Except.ok [] :=
  ⟨claim_C8_amended_malformed_pages.1 ⟨none⟩ rfl,
    claim_C8_amended_malformed_pages.2.1 ⟨none⟩ rfl,
    claim_C8_amended_malformed_pages.2.2.1 ⟨none⟩ rfl,
    claim_C8_amended_malformed_pages.2.2.2.1 ⟨none⟩ rfl⟩

/-- C9 counterexample: the purchase normalizer the pipeline uses
(`PurchaseTransactionsServer._extract_cols`) ignores the line description:
normalizing a Widget line with description `blue` yields product name
`Widget`, not the concatenation `Widget - blue` the claim requires. -/

theorem claim_C9_counterexample :
    (PurchaseTransactionsServer.extract_line ("2025-01-01") lineWithDescription).map
        PurchaseRow.product_name = some ("Widget") ∧
      ("Widget" : String) ≠ "Widget - blue" := by
  constructor
  · rfl
  · decide

/-- C9 amended: only the legacy retriever-level purchase normalizer
(`QBPurchaseTransactionsRetriever._extract_cols`) concatenates a
non-empty line description onto the product name; the
`PurchaseTransactionsServer` normalizer that feeds the pricing pipeline
leaves the resolved item name unchanged, so there lines differing only in
description are not distinct products. -/

theorem claim_C9_amended_description_concat :
    (∀ line : BillLine, (line.description.getD "") ≠ "" →
        (QBPurchaseTransactionsRetriever.extract_line line).product_name
          = resolved_product_name line ++ " - " ++ (line.description.getD "")) ∧
    (∀ (d : String) (line : BillLine) (r : PurchaseRow),
        PurchaseTransactionsServer.extract_line d line = some r →
        r.product_name = resolved_product_name line) := by
  constructor
  · intro line h
    simp only [QBPurchaseTransactionsRetriever.extract_line]
    rw [if_neg h]
  · intro d line r h
    simp only [PurchaseTransactionsServer.extract_line] at h
    split at h
    · exact absurd h (by simp)
    · cases h
      rfl

/-- Witness for the amended C9: the legacy normalizer concatenates the
description of the concrete described line, the pipeline normalizer keeps
the bare resolved name on the same line. -/

theorem claim_C9_witness :
    (QBPurchaseTransactionsRetriever.extract_line lineWithDescription).product_name
        = resolved_product_name lineWithDescription ++ " - "
            ++ (lineWithDescription.description.getD "") ∧
    widgetRowFromDescribedLine.product_name
        = resolved_product_name lineWithDescription :=
  ⟨claim_C9_amended_description_concat.1 lineWithDescription (by decide),
    claim_C9_amended_description_concat.2 ("2025-01-01") lineWithDescription
      widgetRowFromDescribedLine
      (by rfl)⟩

/-- C10: when `DB.get_session()` itself raises (a credential-store
failure), `get_valid_access_token_not_throws` does not return `None`: its
`except` block swallows the original error, but the `finally` clause then
evaluates `db.close()` with the local `db` unbound and the resulting
`UnboundLocalError` propagates to the caller, contradicting the claim
that every internal failure is surfaced as `None`. -/

theorem claim_C10_session_failure_raises :
    ∀ (now : Nat) (e : PyErr) (stored : Option StoredCompany)
      (transport : Except PyErr TokenResponse),
      QBOOAuthManager.get_valid_access_token_not_throws now (Except.error e)
          stored transport = (PyOutcome.exn PyErr.unboundLocalDb, stored) := by
  intro now e stored transport
  rfl
